/-
Verification of the UrbanPulse scenario decision pipeline and clinic workflow
state machine, as implemented in `app.py`, `agents.py` and `scenarios.py`.

The embedding models the deterministic core of the program:
  * the scenario catalog (`scenarios.py`, `DEMO_SCENARIOS`);
  * the local multi-agent fallback cycle (`agents.py`: `EnvironmentSentinel.run_cycle`
    with `ScalestackAgent`, `DynamiqMedicalAgent`, `HealthcarePreparednessAgent`,
    `SupplyChainAgent`);
  * the orchestrator `run_scenario_with_watsonx_first` (`app.py`) on its
    fallback path (the live watsonx backend either disabled or failed, demo
    mode tolerating the failure, as is the default configuration);
  * the JSON-extraction step of `_watsonx_reason` (`app.py`, lines 150-157),
    together with a model of Python's `json.loads` restricted to the integer
    fragment of JSON (no fractional or exponent number forms, no \u escapes);
  * the clinic state endpoints `confirm_order` and `reject_order` (`app.py`).

Conventions:
  * Python dicts with string keys are association lists `List (String × key)`
    in insertion order; catalog dicts have distinct keys.
  * Python `random.randint` draws are passed in as explicit parameters
    (`jitter` for the per-region noise, `fdraw` for the forecast drift draw).
  * `time.time()` is passed in as the explicit parameter `now`.
  * Code that can raise is modelled with `Option` / `Except`; the constructor
    names record which Python exception the branch corresponds to.
  * Log lists, `print` calls, and the `watsonx`/`instance` metadata blocks of
    the response (fixed observability data) are not modelled.
-/
import Mathlib

set_option linter.unusedVariables false

/-- A reading set: Python dict mapping region name to integer PSI value,
as an insertion-ordered association list. -/
abbrev Readings := List (String × Int)

/-- The region names (Python `dict.keys()`), in insertion order. -/
def regionKeys (ps : Readings) : List String := ps.map Prod.fst

/-- The values (Python `dict.values()`), in insertion order. -/
def regionValues (ps : Readings) : List Int := ps.map Prod.snd

/-- Python `max(d.values())`: `none` models the `ValueError` raised on an
empty sequence. -/
def maxPsi : Readings → Option Int
  | [] => none
  | (_, v) :: rest => some (rest.foldl (fun a p => max a p.2) v)

/-- Python dict membership / subscript on a string-keyed dict. -/
def dictLookup {α : Type} (k : String) : List (String × α) → Option α
  | [] => none
  | (k2, v) :: rest => if k == k2 then some v else dictLookup k rest

/-- Does `needle` occur as a substring of `hay`?  Models Python's
`needle in hay` on strings.  (Defined over character lists so that closed
instances reduce by `rfl`.) -/
def startsWithChars : List Char → List Char → Bool
  | [], _ => true
  | _ :: _, [] => false
  | a :: as, b :: bs => a == b && startsWithChars as bs

def containsSubAux (needle : List Char) : List Char → Bool
  | [] => needle.isEmpty
  | c :: cs => startsWithChars needle (c :: cs) || containsSubAux needle cs

def containsSub (hay needle : String) : Bool :=
  containsSubAux needle.toList hay.toList

/-- Python `str.upper()` (ASCII, which covers every string the program
produces). -/
def pyUpper (s : String) : String := String.mk (s.toList.map Char.toUpper)

/-! ## Scenario catalog (`scenarios.py`) -/

structure Scenario where
  psi_data : Readings
  description : String

/-- The `"low_haze"` entry of `DEMO_SCENARIOS` (`scenarios.py`). -/
def low_haze_scenario : Scenario :=
  { psi_data := [("central", 65), ("east", 60), ("north", 55),
                 ("south", 62), ("west", 68)],
    description := "Low haze detected - Early warning" }

/-- The `"moderate_haze"` entry of `DEMO_SCENARIOS` (`scenarios.py`). -/
def moderate_haze_scenario : Scenario :=
  { psi_data := [("central", 125), ("east", 118), ("north", 95),
                 ("south", 102), ("west", 130)],
    description := "Moderate haze event - Protocol activated" }

/-- The `"severe_haze"` entry of `DEMO_SCENARIOS` (`scenarios.py`). -/
def severe_haze_scenario : Scenario :=
  { psi_data := [("central", 215), ("east", 198), ("north", 185),
                 ("south", 205), ("west", 225)],
    description := "Severe haze crisis - Full emergency response" }

/-- `DEMO_SCENARIOS` from `scenarios.py`. -/
def DEMO_SCENARIOS : List (String × Scenario) :=
  [ ("low_haze", low_haze_scenario),
    ("moderate_haze", moderate_haze_scenario),
    ("severe_haze", severe_haze_scenario) ]

/-- `_scenario_with_jitter` (`app.py`): each region's value is perturbed by an
independent `random.randint(-3, 3)` draw; the draw is passed in as the function
`jitter` from region name to the drawn integer (region names are unique within
a catalog dict). -/
def scenario_with_jitter (jitter : String → Int) (base : Scenario) : Scenario :=
  { base with psi_data := base.psi_data.map (fun p => (p.1, p.2 + jitter p.1)) }

/-! ## Local multi-agent fallback (`agents.py`) -/

/-- Result of `ScalestackAgent.execute`. -/
structure EnvData where
  psi_by_region : Readings
  max_psi : Int
  avg_psi : Rat
  high_risk_regions : List String

/-- `ScalestackAgent.execute`: `none` models the `ValueError` Python's `max`
raises on an empty dict (the division in `avg_psi` can only divide by zero in
the same empty case, which `max` reaches first). -/
def scalestack_execute (sd : Scenario) : Option EnvData :=
  match maxPsi sd.psi_data with
  | none => none
  | some m =>
      some { psi_by_region := sd.psi_data
           , max_psi := m
           , avg_psi := ((regionValues sd.psi_data).sum : Rat) / (sd.psi_data.length : Rat)
           , high_risk_regions :=
               (sd.psi_data.filter (fun p => 100 < p.2)).map Prod.fst }

/-- Result of `DynamiqMedicalAgent.execute`. -/
structure RiskAssessment where
  risk_level : String
  predicted_surge : Rat
  current_psi : Int
  affected_regions : List String
  recommendations : List String

/-- `DynamiqMedicalAgent.execute`: fixed thresholds on the maximum PSI. -/
def dynamiq_medical_execute (env : EnvData) : RiskAssessment :=
  let c := env.max_psi
  if 200 < c then
    { risk_level := "CRITICAL", predicted_surge := 3/4, current_psi := c,
      affected_regions := env.high_risk_regions,
      recommendations :=
        [ "Activate all emergency respiratory teams",
          "Prepare 200% normal nebulizer stock",
          "Alert all CHAS clinics in affected regions" ] }
  else if 150 < c then
    { risk_level := "HIGH", predicted_surge := 9/20, current_psi := c,
      affected_regions := env.high_risk_regions,
      recommendations :=
        [ "Increase respiratory specialist availability by 50%",
          "Pre-position N95 masks at clinics",
          "Activate telemedicine for non-urgent cases" ] }
  else if 100 < c then
    { risk_level := "MODERATE", predicted_surge := 1/4, current_psi := c,
      affected_regions := env.high_risk_regions,
      recommendations :=
        [ "Monitor clinic capacity closely",
          "Ensure standard respiratory supplies",
          "Prepare advisory messages for vulnerable groups" ] }
  else
    { risk_level := "LOW", predicted_surge := 1/20, current_psi := c,
      affected_regions := env.high_risk_regions,
      recommendations := ["Continue normal operations"] }

/-- The mock clinic database of `HealthcarePreparednessAgent.execute`. -/
def clinic_mapping : List (String × List String) :=
  [ ("central", ["Singapore General Hospital", "Raffles Medical", "Tan Tock Seng Hospital"]),
    ("east", ["Changi General Hospital", "Bedok Polyclinic"]),
    ("north", ["Khoo Teck Puat Hospital", "Yishun Polyclinic"]),
    ("south", ["National University Hospital", "Alexandra Hospital"]),
    ("west", ["Ng Teng Fong General Hospital", "Jurong Polyclinic"]) ]

structure AlertResult where
  clinics_alerted : List String
  alert_message : String
  total_clinics : Nat

/-- `HealthcarePreparednessAgent.execute`.  The `:.0%` rendering of the exact
per-tier surge constants (75%, 45%, 25%, 5%) is reproduced via the numerator of
`predicted_surge * 100`, whose denominator is 1 for every value the medical
agent produces. -/
def healthcare_execute (risk : RiskAssessment) : AlertResult :=
  let pct : Int := (risk.predicted_surge * 100).num
  let msg := "ALERT: Prepare for " ++ toString pct ++ "% patient surge. PSI: "
               ++ toString risk.current_psi
  let clinics := risk.affected_regions.foldl
      (fun acc r => acc ++ ((dictLookup r clinic_mapping).getD [])) []
  { clinics_alerted := clinics, alert_message := msg, total_clinics := clinics.length }

structure OrderDetails where
  n95_masks : Int
  inhalers : Int
  nebulizers : Int

/-- Result of `SupplyChainAgent.execute`.  The Xero purchase-order id is a
runtime timestamp string unused by the orchestrator and is not modelled. -/
structure SupplyActions where
  action : String
  order_details : OrderDetails
  total_value : Int

/-- `SupplyChainAgent.execute`: fixed per-risk-level order table. -/
def supply_chain_execute (risk : RiskAssessment) : SupplyActions :=
  let od : OrderDetails :=
    if risk.risk_level == "CRITICAL" then
      { n95_masks := 5000, inhalers := 1000, nebulizers := 200 }
    else if risk.risk_level == "HIGH" then
      { n95_masks := 2000, inhalers := 500, nebulizers := 100 }
    else
      { n95_masks := 500, inhalers := 200, nebulizers := 50 }
  { action := "Created Purchase Order in Xero",
    order_details := od,
    total_value := (od.n95_masks + od.inhalers + od.nebulizers) * 10 }

/-- Result of `EnvironmentSentinel.run_cycle` (agent logs are not modelled;
`healthcare_alerts` and `supply_chain_actions` are absent from the returned
dict when no action was taken). -/
structure CycleResult where
  status : String
  risk_assessment : RiskAssessment
  healthcare_alerts : Option AlertResult
  supply_chain_actions : Option SupplyActions

/-- The body of `run_cycle` once perception has succeeded. -/
def cycleOf (env : EnvData) : CycleResult :=
  let risk := dynamiq_medical_execute env
  if risk.risk_level != "LOW" then
    { status := "ACTION_TAKEN", risk_assessment := risk,
      healthcare_alerts := some (healthcare_execute risk),
      supply_chain_actions := some (supply_chain_execute risk) }
  else
    { status := "NO_ACTION_NEEDED", risk_assessment := risk,
      healthcare_alerts := none, supply_chain_actions := none }

/-- `EnvironmentSentinel.run_cycle`. -/
def run_cycle (sd : Scenario) : Option CycleResult :=
  (scalestack_execute sd).map cycleOf

/-! ## Orchestrator: decision normalization and governance (`app.py`) -/

/-- The tier normalization of `run_scenario_with_watsonx_first` (app.py,
lines 274-281): the agent's risk level string (uppercased), overridden to
`SEVERE` when it mentions SEVERE/CRITICAL or the highest PSI is at least 200,
then fixed thresholds. -/
def normalize_risk_level (rl : String) (highest : Int) : String :=
  if containsSub rl "SEVERE" || containsSub rl "CRITICAL" || 200 ≤ highest then "SEVERE"
  else if 101 ≤ highest then "MODERATE"
  else "LOW"

/-- Python's `or` on an optional integer and a further alternative:
`None` and `0` are falsy. -/
def orFalsyInt (a : Option Int) (b : Option Int) : Option Int :=
  match a with
  | some v => if v == 0 then b else some v
  | none => b

/-- Python's `a or d` where `d` is the final integer default. -/
def pyOrInt (a : Option Int) (d : Int) : Int :=
  match a with
  | some v => if v == 0 then d else v
  | none => d

/-- The `rec_qty` expression of the fallback branch (app.py, lines 283-287):
`supply.get("order_details", {}).get("n95_masks") or supply.get("recommended_qty")
or (1200 if severe else 600 if moderate else 300)`.  The local agent system
never produces a `recommended_qty` key, so that middle term is `None`. -/
def fallback_rec_qty (scenario_key : String) (supply : Option SupplyActions) : Int :=
  let n95 : Option Int := supply.map (fun s => s.order_details.n95_masks)
  let recommended : Option Int := none
  let dflt : Int :=
    if scenario_key == "severe_haze" then 1200
    else if scenario_key == "moderate_haze" then 600
    else 300
  pyOrInt (orFalsyInt n95 recommended) dflt

structure GovernanceOut where
  human_in_loop : Bool
  auto_dispatch_allowed : Bool
  why : String

/-- The decision dict produced by the fallback branch (app.py, lines 289-303),
already combined with the normalization of lines 305-308 (which, on a fallback
decision, re-reads exactly the values written at lines 289-303). -/
structure Decision where
  risk_level : String
  highest_psi : Int
  affected_regions : List String
  recommended_qty : Int
  justification : String
  citizen_advice : String
  clinic_action : String
  data_sources : List String
  governance : GovernanceOut

/-- The fallback decision (app.py, lines 271-303): `highest` is the risk
assessment's `current_psi` (present on every cycle result), `risk_level` is the
normalized tier, `affected_regions` is `list(psi_by_region.keys())`, and the
governance block depends only on the scenario key. -/
def fallback_decision (scenario_key : String) (psi_by_region : Readings)
    (cr : CycleResult) : Decision :=
  let highest := cr.risk_assessment.current_psi
  { risk_level := normalize_risk_level (pyUpper cr.risk_assessment.risk_level) highest,
    highest_psi := highest,
    affected_regions := regionKeys psi_by_region,
    recommended_qty := fallback_rec_qty scenario_key cr.supply_chain_actions,
    justification := "Fallback MAS computed risk and recommended stock buffer.",
    citizen_advice := "Limit outdoor activity if PSI is elevated; wear a mask if needed.",
    clinic_action := "Prepare respiratory supplies; review N95 stock levels.",
    data_sources := ["NEA PSI feed (simulated for demo)", "MOH haze guidance (conceptual)"],
    governance :=
      { human_in_loop := scenario_key != "severe_haze",
        auto_dispatch_allowed := scenario_key == "severe_haze",
        why := "Auto-dispatch restricted to severe haze only." } }

/-- `_policy_autonomous_only_for_severe` (app.py, lines 171-180): only the
scenario key is consulted; the risk level and PSI arguments are ignored. -/
def policy_autonomous_only_for_severe (scenario_key : String)
    (_risk_level : String) (_highest_psi : Int) : Bool :=
  if scenario_key == "severe_haze" then true else false

structure Forecast where
  horizon_hours : Nat
  predicted_psi : Int
  predicted_risk_level : String
  confidence : Rat
  method : String

/-- The demo forecast block (app.py, lines 314-359).  `draw` is the
`random.randint` drift drawn inside whichever branch runs ([18,45] for
moderate, [-5,12] for low, [35,90] for severe). -/
def forecast_for (scenario_key : String) (highest_psi : Int) (draw : Int) :
    Option Forecast :=
  if scenario_key == "moderate_haze" then
    let p := min 200 (max 60 (highest_psi + draw))
    some { horizon_hours := 3, predicted_psi := p,
           predicted_risk_level := if p ≤ 100 then "MODERATE" else "UNHEALTHY",
           confidence := 82/100, method := "demo_forecast_agent_v1" }
  else if scenario_key == "low_haze" then
    let p := min 100 (max 30 (highest_psi + draw))
    some { horizon_hours := 6, predicted_psi := p,
           predicted_risk_level := if p ≤ 50 then "GOOD" else "MODERATE",
           confidence := 88/100, method := "demo_forecast_agent_v1" }
  else if scenario_key == "severe_haze" then
    let p := min 400 (max 180 (highest_psi + draw))
    some { horizon_hours := 1, predicted_psi := p,
           predicted_risk_level :=
             if p ≤ 200 then "UNHEALTHY"
             else if p ≤ 300 then "VERY UNHEALTHY"
             else "HAZARDOUS",
           confidence := 90/100, method := "demo_forecast_agent_v1" }
  else none

/-! ## Clinic workflow state (`app.py`, globals and endpoints) -/

/-- The `clinic_state["draft"]` dict.  The initial dict lacks the `psi` and
`risk_level` keys that `run_scenario_with_watsonx_first` adds; those two are
therefore `Option`-valued, `none` meaning the key is absent. -/
structure Draft where
  active : Bool
  facility : String
  id : String
  qty : Int
  cost : String
  reason : String
  autonomous : Bool
  psi : Option Int
  risk_level : Option String

structure ClinicState where
  view : String
  protocol : String
  draft : Draft

/-- The module-level `clinic_state` initializer. -/
def initialClinicState : ClinicState :=
  { view := "normal", protocol := "standard",
    draft := { active := false, facility := "---", id := "---", qty := 0,
               cost := "$0", reason := "", autonomous := false,
               psi := none, risk_level := none } }

/-- An entry of the `active_orders` list. -/
structure Order where
  id : String
  facility : String
  qty : Int
  status : String
  timestamp : Nat

/-! ## `run_scenario_with_watsonx_first` (`app.py`, lines 229-422) -/

/-- The exceptions `run_scenario_with_watsonx_first` can raise on the modelled
(fallback) path. -/
inductive RunErr where
  | invalidScenario (key : String)  -- ValueError("Invalid scenario: ...") at line 238
  | emptyReadings                   -- ValueError from max() on an empty reading set
deriving DecidableEq

/-- `risk_assessment` block of the merged response. -/
structure RiskOut where
  current_psi : Int
  risk_level : String
  affected_regions : List String

/-- `supply_chain_actions` block of the merged response. -/
structure SupplyOut where
  recommended_qty : Int
  po_id : String
  autonomous : Bool
  justification : String
  governance : GovernanceOut

/-- The merged response of `run_scenario_with_watsonx_first` (the `watsonx`,
`logs` and `instance` observability blocks are not modelled). -/
structure RunResult where
  status : String
  scenario : String
  psi_by_region : Readings
  risk_assessment : RiskOut
  alert_message : String
  citizen_advice : String
  supply_chain_actions : SupplyOut
  predictive_analytics : Option Forecast

/-- The merged response built at app.py lines 305-422 once the fallback
decision is in hand. -/
def merged_result (scenario_key source : String) (psi_by_region : Readings)
    (cr : CycleResult) (fdraw : Int) (now : Nat) : RunResult :=
  let d := fallback_decision scenario_key psi_by_region cr
  let affected :=
    if d.affected_regions.isEmpty then regionKeys psi_by_region
    else d.affected_regions
  let autonomous :=
    if source == "ui" then false
    else policy_autonomous_only_for_severe scenario_key d.risk_level d.highest_psi
  { status := "success", scenario := scenario_key,
    psi_by_region := psi_by_region,
    risk_assessment :=
      { current_psi := d.highest_psi, risk_level := d.risk_level,
        affected_regions := affected },
    alert_message := d.clinic_action,
    citizen_advice := d.citizen_advice,
    supply_chain_actions :=
      { recommended_qty := d.recommended_qty,
        po_id := "PO-" ++ toString now,
        autonomous := autonomous,
        justification := d.justification,
        governance := d.governance },
    predictive_analytics := forecast_for scenario_key d.highest_psi fdraw }

/-- The clinic state written at app.py lines 361-382: every run overwrites
`protocol` from the governance outcome and replaces the draft. -/
def state_after_run (scenario_key source : String) (psi_by_region : Readings)
    (cr : CycleResult) (now : Nat) (st : ClinicState) : ClinicState :=
  let d := fallback_decision scenario_key psi_by_region cr
  let autonomous :=
    if source == "ui" then false
    else policy_autonomous_only_for_severe scenario_key d.risk_level d.highest_psi
  { view := st.view,
    protocol := if autonomous then "autonomous" else "standard",
    draft := { active := true,
               facility := "Tan Tock Seng Hospital (HQ)",
               id := "PO-" ++ toString now,
               qty := d.recommended_qty,
               cost := "$—",
               reason := d.justification,
               autonomous := autonomous,
               psi := some d.highest_psi,
               risk_level := some d.risk_level } }

/-- `run_scenario_with_watsonx_first` on the modelled configuration: demo mode
(the default), with the primary watsonx path either disabled or failed.
`wxError` is `some msg` when a live watsonx attempt raised with message `msg`
(demo mode catches any such exception and proceeds identically to the disabled
case, feeding only the unmodelled log/metadata blocks), `none` when the
backend is disabled.  `jitter`, `fdraw` and `now` stand for the random draws
and the wall clock as explained above.  The global `clinic_state` and
`active_orders` are threaded explicitly; they are returned unchanged on the
error paths, which in the source raise before any global mutation. -/
def run_scenario_with_watsonx_first (scenario_key source : String)
    (wxError : Option String) (jitter : String → Int) (fdraw : Int) (now : Nat)
    (st : ClinicState) (orders : List Order) :
    Except RunErr RunResult × ClinicState × List Order :=
  match dictLookup scenario_key DEMO_SCENARIOS with
  | none => (Except.error (RunErr.invalidScenario scenario_key), st, orders)
  | some base =>
      match run_cycle (scenario_with_jitter jitter base) with
      | none => (Except.error RunErr.emptyReadings, st, orders)
      | some cr =>
          (Except.ok (merged_result scenario_key source
             (scenario_with_jitter jitter base).psi_data cr fdraw now),
           state_after_run scenario_key source
             (scenario_with_jitter jitter base).psi_data cr now st,
           orders)

/-! ## `confirm_order` and `reject_order` (`app.py`, lines 505-534) -/

/-- Python exceptions raised by the state endpoints. -/
inductive PyErr where
  | nameError (name : String)
deriving DecidableEq

/-- The success payload `confirm_order` is written to return.  It is in fact
unreachable: see `confirm_order` below. -/
structure ConfirmResp where
  status : String
  confirmed_qty : Int
  show_logistics_button : Bool
  redirect_url : String
  order : Order

/-- `confirm_order` (app.py, lines 505-525).  The handler computes
`confirmed = int(data.get("confirmed_qty") or 0)` and then builds `new_order`
with the entry `"qty": confirmed_qty` (line 514) — but no name `confirmed_qty`
is bound anywhere in `app.py` (the local variable is `confirmed`), so
evaluating the dict literal raises `NameError` before the order is appended,
before `view` is set to "approved" and before the draft is deactivated.  The
globals are therefore never mutated, which the explicit threading records by
returning them unchanged alongside the error. -/
def confirm_order (confirmed_qty_payload : Option Int) (_now : Nat)
    (st : ClinicState) (orders : List Order) :
    Except PyErr (ConfirmResp × ClinicState × List Order) :=
  let confirmed : Int :=
    match confirmed_qty_payload with
    | some v => if v == 0 then 0 else v
    | none => 0
  let _ := confirmed
  Except.error (PyErr.nameError "confirmed_qty")

/-- `reject_order` (app.py, lines 531-534): unconditionally clears
`draft.active` and reports success; nothing else is touched. -/
def reject_order (st : ClinicState) (orders : List Order) :
    String × ClinicState × List Order :=
  ("success", { st with draft := { st.draft with active := false } }, orders)

/-! ## JSON extraction in `_watsonx_reason` (`app.py`, lines 150-157)

`json.loads` is Python standard library; it is modelled here by a recursive
descent parser over the integer fragment of JSON (objects, arrays, strings
with the common escapes, integers, booleans, null — the program's prompt asks
for exactly this fragment).  Fractional/exponent numbers and \u escapes are
outside the model. -/

inductive Json where
  | null
  | bool (b : Bool)
  | num (n : Int)
  | str (s : String)
  | arr (elems : List Json)
  | obj (fields : List (String × Json))

/-- JSON insignificant whitespace. -/
def jsonWs (c : Char) : Bool := c == ' ' || c == '\t' || c == '\n' || c == '\r'

def skipWs : List Char → List Char
  | [] => []
  | c :: cs => if jsonWs c then skipWs cs else c :: cs

/-- Body of a JSON string literal after the opening quote: returns the decoded
characters and the input after the closing quote. -/
def parseStrAux : List Char → Option (List Char × List Char)
  | [] => none
  | '"' :: rest => some ([], rest)
  | '\\' :: e :: rest =>
      (match e with
       | '"' => some '"'
       | '\\' => some '\\'
       | '/' => some '/'
       | 'n' => some '\n'
       | 't' => some '\t'
       | 'r' => some '\r'
       | 'b' => some (Char.ofNat 8)
       | 'f' => some (Char.ofNat 12)
       | _ => none).bind fun c =>
        (parseStrAux rest).map fun (sr : List Char × List Char) => (c :: sr.1, sr.2)
  | c :: rest =>
      (parseStrAux rest).map fun (sr : List Char × List Char) => (c :: sr.1, sr.2)

def isDigitCh (c : Char) : Bool := '0' ≤ c && c ≤ '9'

def takeDigits : List Char → List Char × List Char
  | [] => ([], [])
  | c :: cs =>
      if isDigitCh c then
        let r := takeDigits cs
        (c :: r.1, r.2)
      else ([], c :: cs)

def digitsToNat (ds : List Char) : Nat :=
  ds.foldl (fun a c => a * 10 + (c.toNat - 48)) 0

/-- A JSON integer: optional minus, digits, no leading zeros, and — as the
model covers only the integer fragment — not followed by `.`, `e` or `E`. -/
def parseNum (cs : List Char) : Option (Int × List Char) :=
  let core : List Char → Option (Nat × List Char) := fun body =>
    match takeDigits body with
    | ([], _) => none
    | (ds, rest) =>
        if ds.length > 1 && ds.headD '0' == '0' then none
        else match rest with
             | '.' :: _ => none
             | 'e' :: _ => none
             | 'E' :: _ => none
             | _ => some (digitsToNat ds, rest)
  match cs with
  | '-' :: body => (core body).map fun nr => (-(nr.1 : Int), nr.2)
  | _ => (core cs).map fun nr => ((nr.1 : Int), nr.2)

/-- Parsing tasks: a single value, array elements after `[`, or object members
after `{` (in both cases with at least one item pending). -/
inductive PTask where
  | val
  | elems
  | members

/-- Parsing results, one constructor per task. -/
inductive PRes where
  | v (j : Json) (rest : List Char)
  | es (js : List Json) (rest : List Char)
  | ms (kvs : List (String × Json)) (rest : List Char)

/-- Fuel-indexed recursive descent; every recursive call strictly consumes
input, so `length + 1` fuel always suffices. -/
def parseAux : Nat → PTask → List Char → Option PRes
  | 0, _, _ => none
  | Nat.succ fuel, PTask.val, cs0 =>
      (match skipWs cs0 with
       | 'n' :: 'u' :: 'l' :: 'l' :: rest => some (PRes.v Json.null rest)
       | 't' :: 'r' :: 'u' :: 'e' :: rest => some (PRes.v (Json.bool true) rest)
       | 'f' :: 'a' :: 'l' :: 's' :: 'e' :: rest => some (PRes.v (Json.bool false) rest)
       | '"' :: rest =>
           (parseStrAux rest).map fun sr => PRes.v (Json.str (String.mk sr.1)) sr.2
       | '[' :: rest =>
           (match skipWs rest with
            | ']' :: rem => some (PRes.v (Json.arr []) rem)
            | cs1 =>
                match parseAux fuel PTask.elems cs1 with
                | some (PRes.es js rem) => some (PRes.v (Json.arr js) rem)
                | _ => none)
       | '{' :: rest =>
           (match skipWs rest with
            | '}' :: rem => some (PRes.v (Json.obj []) rem)
            | cs1 =>
                match parseAux fuel PTask.members cs1 with
                | some (PRes.ms kvs rem) => some (PRes.v (Json.obj kvs) rem)
                | _ => none)
       | cs => (parseNum cs).map fun nr => PRes.v (Json.num nr.1) nr.2)
  | Nat.succ fuel, PTask.elems, cs =>
      (match parseAux fuel PTask.val cs with
       | some (PRes.v j rem) =>
           (match skipWs rem with
            | ',' :: rem2 =>
                (match parseAux fuel PTask.elems rem2 with
                 | some (PRes.es js rem3) => some (PRes.es (j :: js) rem3)
                 | _ => none)
            | ']' :: rem2 => some (PRes.es [j] rem2)
            | _ => none)
       | _ => none)
  | Nat.succ fuel, PTask.members, cs =>
      (match skipWs cs with
       | '"' :: rest =>
           (match parseStrAux rest with
            | some (k, rem) =>
                (match skipWs rem with
                 | ':' :: rem2 =>
                     (match parseAux fuel PTask.val rem2 with
                      | some (PRes.v j rem3) =>
                          (match skipWs rem3 with
                           | ',' :: rem4 =>
                               (match parseAux fuel PTask.members rem4 with
                                | some (PRes.ms kvs rem5) =>
                                    some (PRes.ms ((String.mk k, j) :: kvs) rem5)
                                | _ => none)
                           | '}' :: rem4 => some (PRes.ms [(String.mk k, j)] rem4)
                           | _ => none)
                      | _ => none)
                 | _ => none)
            | none => none)
       | _ => none)

/-- Model of `json.loads` (on the integer fragment): parse one JSON value and
require that only whitespace follows; `none` models `json.JSONDecodeError`. -/
def jsonLoads (s : String) : Option Json :=
  let cs := s.toList
  match parseAux (cs.length + 1) PTask.val cs with
  | some (PRes.v j rest) => if (skipWs rest).isEmpty then some j else none
  | _ => none

/-- First index of `c` (Python `str.find`, with `none` for -1). -/
def idxOf (c : Char) : List Char → Option Nat
  | [] => none
  | a :: as => if a == c then some 0 else (idxOf c as).map Nat.succ

/-- Last index of `c` (Python `str.rfind`, with `none` for -1). -/
def lastIdxOf (c : Char) (cs : List Char) : Option Nat :=
  (idxOf c cs.reverse).map (fun k => cs.length - 1 - k)

/-- The exceptions the extraction step of `_watsonx_reason` raises. -/
inductive WxErr where
  | noJson       -- ValueError("watsonx did not return JSON. ...") at line 154
  | decodeError  -- json.JSONDecodeError from json.loads at line 157
deriving DecidableEq

/-- The output-parsing tail of `_watsonx_reason` (app.py, lines 150-157):
`start = text_out.find("{")`, `end = text_out.rfind("}")`; raise unless both
exist with `start < end`; then `json.loads(text_out[start : end + 1])`. -/
def watsonx_extract_json (text_out : String) : Except WxErr Json :=
  let cs := text_out.toList
  match idxOf '{' cs, lastIdxOf '}' cs with
  | some s, some e =>
      if e ≤ s then Except.error WxErr.noJson
      else
        match jsonLoads (String.mk ((cs.drop s).take (e + 1 - s))) with
        | some j => Except.ok j
        | none => Except.error WxErr.decodeError
  | _, _ => Except.error WxErr.noJson

/-- Modelled from the spec: "Output parsing must locate the first well-formed
structured object embedded anywhere in the raw text response."  Scans the text
left to right and returns the parse of the first position at which a
well-formed JSON object begins, if any. -/
def firstJsonObjectAux : List Char → Option Json
  | [] => none
  | c :: cs =>
      if c == '{' then
        match parseAux ((c :: cs).length + 1) PTask.val (c :: cs) with
        | some (PRes.v j _) => some j
        | _ => firstJsonObjectAux cs
      else firstJsonObjectAux cs

def firstJsonObject (t : String) : Option Json := firstJsonObjectAux t.toList

/-! ## Spec-side comparison definitions -/

/-- Modelled from the spec: "affected_regions = all regions whose value ≥
highest_value − fixed_margin (margin is a policy constant, e.g. 10)". -/
def specAffectedRegions (ps : Readings) : Option (List String) :=
  (maxPsi ps).map fun m => (ps.filter (fun p => m - 10 ≤ p.2)).map Prod.fst

/-- The tier the decision pipeline actually computes for a reading set: the
medical agent's classification of the highest value, re-normalized by
`normalize_risk_level` exactly as `run_scenario_with_watsonx_first` does on
the fallback path. -/
def pipelineTier (ps : Readings) : Option String :=
  (run_cycle { psi_data := ps, description := "" }).map fun cr =>
    normalize_risk_level (pyUpper cr.risk_assessment.risk_level)
      cr.risk_assessment.current_psi

/-- The amended threshold map: LOW below 101, MODERATE from 101 to 199,
SEVERE from 200 up. -/
def tierOfHighest (h : Int) : String :=
  if 200 ≤ h then "SEVERE" else if 101 ≤ h then "MODERATE" else "LOW"

/-- Ordinal rank of a tier, for the monotonicity statement. -/
def tierOrd (t : String) : Nat :=
  if t == "SEVERE" then 2 else if t == "MODERATE" then 1 else 0

/-! ## Helper lemmas -/

lemma catalog_psi_ne_nil {key : String} {scn : Scenario}
    (h : dictLookup key DEMO_SCENARIOS = some scn) : scn.psi_data ≠ [] := by
  simp only [DEMO_SCENARIOS, dictLookup] at h
  split at h
  · obtain rfl := Option.some.inj h
    simp [low_haze_scenario]
  · split at h
    · obtain rfl := Option.some.inj h
      simp [moderate_haze_scenario]
    · split at h
      · obtain rfl := Option.some.inj h
        simp [severe_haze_scenario]
      · simp at h

lemma maxPsi_isSome {ps : Readings} (h : ps ≠ []) : ∃ m, maxPsi ps = some m := by
  cases ps with
  | nil => exact absurd rfl h
  | cons p rest =>
      obtain ⟨a, v⟩ := p
      exact ⟨_, rfl⟩

lemma jitter_psi_ne_nil (jitter : String → Int) {base : Scenario}
    (h : base.psi_data ≠ []) :
    (scenario_with_jitter jitter base).psi_data ≠ [] := by
  simpa [scenario_with_jitter] using h

lemma run_cycle_eq {sd : Scenario} {m : Int} (hm : maxPsi sd.psi_data = some m) :
    run_cycle sd = some (cycleOf
      { psi_by_region := sd.psi_data, max_psi := m,
        avg_psi := ((regionValues sd.psi_data).sum : Rat) / (sd.psi_data.length : Rat),
        high_risk_regions := (sd.psi_data.filter (fun p => 100 < p.2)).map Prod.fst }) := by
  unfold run_cycle scalestack_execute
  rw [hm]
  rfl

lemma run_ok {key source : String} {wxE : Option String} {jitter : String → Int}
    {fdraw : Int} {now : Nat} {st : ClinicState} {orders : List Order}
    {base : Scenario} {cr : CycleResult}
    (hb : dictLookup key DEMO_SCENARIOS = some base)
    (hc : run_cycle (scenario_with_jitter jitter base) = some cr) :
    run_scenario_with_watsonx_first key source wxE jitter fdraw now st orders =
      (Except.ok (merged_result key source
         (scenario_with_jitter jitter base).psi_data cr fdraw now),
       state_after_run key source
         (scenario_with_jitter jitter base).psi_data cr now st,
       orders) := by
  unfold run_scenario_with_watsonx_first
  rw [hb]
  dsimp only
  rw [hc]

lemma cycle_qty_critical (key : String) (env : EnvData) (h : 200 < env.max_psi) :
    fallback_rec_qty key (cycleOf env).supply_chain_actions = 5000 := by
  unfold cycleOf dynamiq_medical_execute
  dsimp only
  rw [if_pos h]
  simp [supply_chain_execute, fallback_rec_qty, orFalsyInt, pyOrInt]

lemma cycle_qty_high (key : String) (env : EnvData)
    (h1 : 150 < env.max_psi) (h2 : env.max_psi ≤ 200) :
    fallback_rec_qty key (cycleOf env).supply_chain_actions = 2000 := by
  unfold cycleOf dynamiq_medical_execute
  dsimp only
  rw [if_neg (by omega : ¬ 200 < env.max_psi), if_pos h1]
  simp [supply_chain_execute, fallback_rec_qty, orFalsyInt, pyOrInt]

lemma cycle_qty_moderate (key : String) (env : EnvData)
    (h1 : 100 < env.max_psi) (h2 : env.max_psi ≤ 150) :
    fallback_rec_qty key (cycleOf env).supply_chain_actions = 500 := by
  unfold cycleOf dynamiq_medical_execute
  dsimp only
  rw [if_neg (by omega : ¬ 200 < env.max_psi),
      if_neg (by omega : ¬ 150 < env.max_psi), if_pos h1]
  simp [supply_chain_execute, fallback_rec_qty, orFalsyInt, pyOrInt]

lemma cycle_qty_low (key : String) (env : EnvData) (h : env.max_psi ≤ 100) :
    fallback_rec_qty key (cycleOf env).supply_chain_actions =
      (if key == "severe_haze" then 1200
       else if key == "moderate_haze" then 600 else 300) := by
  unfold cycleOf dynamiq_medical_execute
  dsimp only
  rw [if_neg (by omega : ¬ 200 < env.max_psi),
      if_neg (by omega : ¬ 150 < env.max_psi),
      if_neg (by omega : ¬ 100 < env.max_psi)]
  simp [fallback_rec_qty, orFalsyInt, pyOrInt]

lemma cycleOf_risk (env : EnvData) :
    (cycleOf env).risk_assessment = dynamiq_medical_execute env := by
  unfold cycleOf
  dsimp only
  split <;> rfl

lemma normalize_critical (h : Int) :
    normalize_risk_level (pyUpper "CRITICAL") h = "SEVERE" := by
  have e : containsSub (pyUpper "CRITICAL") "CRITICAL" = true := rfl
  simp [normalize_risk_level, e]

lemma normalize_plain (rl : String) (h : Int)
    (h1 : containsSub (pyUpper rl) "SEVERE" = false)
    (h2 : containsSub (pyUpper rl) "CRITICAL" = false) :
    normalize_risk_level (pyUpper rl) h =
      (if 200 ≤ h then "SEVERE" else if 101 ≤ h then "MODERATE" else "LOW") := by
  simp [normalize_risk_level, h1, h2]

lemma medical_tier (env : EnvData) :
    normalize_risk_level (pyUpper (dynamiq_medical_execute env).risk_level)
        (dynamiq_medical_execute env).current_psi
      = tierOfHighest env.max_psi := by
  unfold dynamiq_medical_execute tierOfHighest
  dsimp only
  by_cases h1 : 200 < env.max_psi
  · rw [if_pos h1]
    dsimp only
    rw [normalize_critical, if_pos (by omega : (200:Int) ≤ env.max_psi)]
  · rw [if_neg h1]
    by_cases h2 : 150 < env.max_psi
    · rw [if_pos h2]
      dsimp only
      rw [normalize_plain "HIGH" _ rfl rfl]
    · rw [if_neg h2]
      by_cases h3 : 100 < env.max_psi
      · rw [if_pos h3]
        dsimp only
        rw [normalize_plain "MODERATE" _ rfl rfl]
      · rw [if_neg h3]
        dsimp only
        rw [normalize_plain "LOW" _ rfl rfl]

lemma run_qty {key source : String} {wxE : Option String} {jitter : String → Int}
    {fdraw : Int} {now : Nat} {st : ClinicState} {orders : List Order}
    {base : Scenario} {m : Int}
    (hb : dictLookup key DEMO_SCENARIOS = some base)
    (hm : maxPsi (scenario_with_jitter jitter base).psi_data = some m) :
    (run_scenario_with_watsonx_first key source wxE jitter fdraw now st orders).1.map
        (fun r => r.supply_chain_actions.recommended_qty)
      = Except.ok
          (if m ≤ 100 then
             (if key == "severe_haze" then 1200
              else if key == "moderate_haze" then 600 else 300)
           else if m ≤ 150 then 500
           else if m ≤ 200 then 2000
           else 5000) := by
  rw [run_ok hb (run_cycle_eq hm)]
  dsimp only [Except.map, merged_result, fallback_decision]
  congr 1
  by_cases h1 : m ≤ 100
  · rw [cycle_qty_low key _ h1, if_pos h1]
  · by_cases h2 : m ≤ 150
    · rw [cycle_qty_moderate key _ (by show (100:Int) < m; omega) h2,
          if_neg h1, if_pos h2]
    · by_cases h3 : m ≤ 200
      · rw [cycle_qty_high key _ (by show (150:Int) < m; omega) h3,
            if_neg h1, if_neg h2, if_pos h3]
      · rw [cycle_qty_critical key _ (by show (200:Int) < m; omega),
            if_neg h1, if_neg h2, if_neg h3]

lemma cycle_qty_nonneg (key : String) (env : EnvData) :
    0 ≤ fallback_rec_qty key (cycleOf env).supply_chain_actions := by
  by_cases h1 : env.max_psi ≤ 100
  · rw [cycle_qty_low key env h1]
    split_ifs <;> norm_num
  · by_cases h2 : env.max_psi ≤ 150
    · rw [cycle_qty_moderate key env (by omega) h2]
      norm_num
    · by_cases h3 : env.max_psi ≤ 200
      · rw [cycle_qty_high key env (by omega) h3]
        norm_num
      · rw [cycle_qty_critical key env (by omega)]
        norm_num

lemma regionKeys_jitter (jitter : String → Int) (base : Scenario) :
    regionKeys (scenario_with_jitter jitter base).psi_data = regionKeys base.psi_data := by
  unfold regionKeys scenario_with_jitter
  dsimp only
  rw [List.map_map]
  rfl

/-! ## Claim theorems -/

/-- C1 (counterexample): for a UI-originated invocation of the severe scenario,
the governance block of the merged result reports `auto_dispatch_allowed = true`
(the fallback decision's governance depends only on the scenario key), so the
claimed "auto_dispatch_allowed is true iff severe AND non-UI origin" is false
at scenario `severe_haze`, source `"ui"`. -/
theorem c1_ui_severe_auto_dispatch_counterexample :
    (run_scenario_with_watsonx_first "severe_haze" "ui" none (fun _ => 0) 0 0
        initialClinicState []).1.map
      (fun r => r.supply_chain_actions.governance.auto_dispatch_allowed)
      = Except.ok true ∧
    (run_scenario_with_watsonx_first "severe_haze" "ui" none (fun _ => 0) 0 0
        initialClinicState []).1.map
      (fun r => r.supply_chain_actions.autonomous)
      = Except.ok false :=
  ⟨rfl, rfl⟩

/-- C1 (amended): in the merged result of every catalog run on the fallback
path, the decision-level `governance.auto_dispatch_allowed` is true iff the
scenario is `severe_haze`, regardless of origin; the origin-sensitive flag is
the separate `autonomous` field (also stored on the draft), which is true iff
the scenario is `severe_haze` AND the origin is not the UI — so UI-originated
runs never actually auto-dispatch, but their governance block still reports
auto-dispatch as allowed for the severe scenario. -/
theorem c1_governance_flags (key source : String) (wxE : Option String)
    (jitter : String → Int) (fdraw : Int) (now : Nat) (st : ClinicState)
    (orders : List Order) (base : Scenario)
    (hb : dictLookup key DEMO_SCENARIOS = some base) :
    (run_scenario_with_watsonx_first key source wxE jitter fdraw now st orders).1.map
        (fun r => r.supply_chain_actions.governance.auto_dispatch_allowed)
      = Except.ok (key == "severe_haze") ∧
    (run_scenario_with_watsonx_first key source wxE jitter fdraw now st orders).1.map
        (fun r => r.supply_chain_actions.autonomous)
      = Except.ok (!(source == "ui") && (key == "severe_haze")) ∧
    (run_scenario_with_watsonx_first key source wxE jitter fdraw now st orders).2.1.draft.autonomous
      = (!(source == "ui") && (key == "severe_haze")) := by
  obtain ⟨m, hm⟩ := maxPsi_isSome (jitter_psi_ne_nil jitter (catalog_psi_ne_nil hb))
  rw [run_ok hb (run_cycle_eq hm)]
  refine ⟨rfl, ?_, ?_⟩ <;>
  · dsimp only [Except.map, merged_result, fallback_decision, state_after_run,
                policy_autonomous_only_for_severe]
    cases hs : source == "ui" <;> cases hk : key == "severe_haze" <;> simp [hs, hk]

/-- C1 (witness): the amended governance statement at the severe scenario with
a non-UI origin. -/
theorem c1_governance_flags_witness :
    (run_scenario_with_watsonx_first "severe_haze" "api" none (fun _ => 0) 0 0
        initialClinicState []).1.map
      (fun r => r.supply_chain_actions.governance.auto_dispatch_allowed)
      = Except.ok ("severe_haze" == "severe_haze") ∧
    (run_scenario_with_watsonx_first "severe_haze" "api" none (fun _ => 0) 0 0
        initialClinicState []).1.map
      (fun r => r.supply_chain_actions.autonomous)
      = Except.ok (!("api" == "ui") && ("severe_haze" == "severe_haze")) ∧
    (run_scenario_with_watsonx_first "severe_haze" "api" none (fun _ => 0) 0 0
        initialClinicState []).2.1.draft.autonomous
      = (!("api" == "ui") && ("severe_haze" == "severe_haze")) :=
  c1_governance_flags "severe_haze" "api" none (fun _ => 0) 0 0
    initialClinicState [] severe_haze_scenario rfl

/-- C2 (code bug): `confirm_order` always raises `NameError` because line 514
of `app.py` reads the undefined name `confirmed_qty` (the bound local is
`confirmed`); no order is appended, the view is not set to "approved" and the
draft stays active — the claimed confirm transition never happens, for any
payload (e.g. 500) and any state, active draft included. -/
theorem c2_confirm_order_name_error (confirmed_qty_payload : Option Int)
    (now : Nat) (st : ClinicState) (orders : List Order) :
    confirm_order confirmed_qty_payload now st orders
      = Except.error (PyErr.nameError "confirmed_qty") := rfl

/-- C3 (confirmed): for every catalog scenario and every jitter draw (any
integers, so negative perturbed values are covered), the fallback path of
`run_scenario_with_watsonx_first` succeeds (no exception) and the merged
result's recommended quantity is nonnegative. -/
theorem c3_fallback_total (key source : String) (wxE : Option String)
    (jitter : String → Int) (fdraw : Int) (now : Nat) (st : ClinicState)
    (orders : List Order) (base : Scenario)
    (hb : dictLookup key DEMO_SCENARIOS = some base) :
    (run_scenario_with_watsonx_first key source wxE jitter fdraw now st orders).1.isOk
      = true ∧
    (run_scenario_with_watsonx_first key source wxE jitter fdraw now st orders).1.map
        (fun r => decide (0 ≤ r.supply_chain_actions.recommended_qty))
      = Except.ok true := by
  obtain ⟨m, hm⟩ := maxPsi_isSome (jitter_psi_ne_nil jitter (catalog_psi_ne_nil hb))
  rw [run_ok hb (run_cycle_eq hm)]
  refine ⟨rfl, ?_⟩
  dsimp only [Except.map, merged_result, fallback_decision]
  congr 1
  rw [decide_eq_true_eq]
  exact cycle_qty_nonneg key _

/-- C3 (witness): totality and nonnegativity at the low scenario with zero
jitter. -/
theorem c3_fallback_total_witness :
    (run_scenario_with_watsonx_first "low_haze" "api" none (fun _ => 0) 0 0
        initialClinicState []).1.isOk = true ∧
    (run_scenario_with_watsonx_first "low_haze" "api" none (fun _ => 0) 0 0
        initialClinicState []).1.map
      (fun r => decide (0 ≤ r.supply_chain_actions.recommended_qty))
      = Except.ok true :=
  c3_fallback_total "low_haze" "api" none (fun _ => 0) 0 0
    initialClinicState [] low_haze_scenario rfl

/-- C4 (counterexample): at highest value exactly 200 (within the claim's
101–200 MODERATE band) the pipeline classifies SEVERE, because the
normalization at app.py line 276 tests `highest >= 200`, not `> 200`. -/
theorem c4_tier_at_200_counterexample :
    ((101:Int) ≤ 200 ∧ (200:Int) ≤ 200) ∧
    pipelineTier [("central", 200)] = some "SEVERE" ∧
    pipelineTier [("central", 200)] ≠ some "MODERATE" :=
  ⟨⟨by norm_num, le_refl _⟩, rfl, by decide⟩

/-- C4 (amended): for every reading set with at least one region, the tier
computed in the decision pipeline is LOW when highest_value ≤ 100, MODERATE
when 101 ≤ highest_value ≤ 199, and SEVERE when highest_value ≥ 200 (the 200
boundary belongs to SEVERE, not MODERATE); the tier remains a non-decreasing
function of highest_value. -/
theorem c4_tier_thresholds :
    (∀ (ps : Readings) (m : Int), maxPsi ps = some m →
        pipelineTier ps = some (tierOfHighest m)) ∧
    (∀ m1 m2 : Int, m1 ≤ m2 →
        tierOrd (tierOfHighest m1) ≤ tierOrd (tierOfHighest m2)) := by
  constructor
  · intro ps m hm
    unfold pipelineTier
    rw [@run_cycle_eq ⟨ps, ""⟩ m hm, Option.map_some', cycleOf_risk, medical_tier]
  · intro m1 m2 h
    unfold tierOfHighest
    by_cases ha : (200:Int) ≤ m1
    · rw [if_pos ha, if_pos (by omega : (200:Int) ≤ m2)]
    · rw [if_neg ha]
      by_cases hb : (200:Int) ≤ m2
      · rw [if_pos hb]
        split_ifs <;> decide
      · rw [if_neg hb]
        by_cases hc : (101:Int) ≤ m1
        · rw [if_pos hc, if_pos (by omega : (101:Int) ≤ m2)]
        · rw [if_neg hc]
          split_ifs <;> decide

/-- C4 (witness): the threshold characterization at a single-region reading
set with value 150, and monotonicity at 150 ≤ 250. -/
theorem c4_tier_thresholds_witness :
    pipelineTier [("central", 150)] = some (tierOfHighest 150) ∧
    tierOrd (tierOfHighest 150) ≤ tierOrd (tierOfHighest 250) :=
  ⟨c4_tier_thresholds.1 [("central", 150)] 150 rfl,
   c4_tier_thresholds.2 150 250 (by norm_num)⟩

/-- C5 (counterexample): on the low scenario with zero jitter, the fallback
path reports all five regions as affected, although the spec's margin rule
(value ≥ highest − 10) excludes "north" (55 < 68 − 10). -/
theorem c5_affected_regions_counterexample :
    (run_scenario_with_watsonx_first "low_haze" "api" none (fun _ => 0) 0 0
        initialClinicState []).1.map (fun r => r.risk_assessment.affected_regions)
      = Except.ok ["central", "east", "north", "south", "west"] ∧
    specAffectedRegions low_haze_scenario.psi_data
      = some ["central", "east", "south", "west"] ∧
    (["central", "east", "north", "south", "west"] : List String)
      ≠ ["central", "east", "south", "west"] :=
  ⟨rfl, rfl, by decide⟩

/-- C5 (amended): the affected_regions of the fallback decision (and of the
merged result derived from it) are exactly the full list of region keys of the
reading set, independent of the values; no highest−10 margin filter is
applied. -/
theorem c5_affected_regions_all_keys (key source : String) (wxE : Option String)
    (jitter : String → Int) (fdraw : Int) (now : Nat) (st : ClinicState)
    (orders : List Order) (base : Scenario)
    (hb : dictLookup key DEMO_SCENARIOS = some base) :
    (run_scenario_with_watsonx_first key source wxE jitter fdraw now st orders).1.map
        (fun r => r.risk_assessment.affected_regions)
      = Except.ok (regionKeys base.psi_data) := by
  obtain ⟨m, hm⟩ := maxPsi_isSome (jitter_psi_ne_nil jitter (catalog_psi_ne_nil hb))
  rw [run_ok hb (run_cycle_eq hm)]
  dsimp only [Except.map, merged_result, fallback_decision]
  congr 1
  rw [ite_self]
  exact regionKeys_jitter jitter base

/-- C5 (witness): the amended affected-regions statement at the low scenario
with zero jitter. -/
theorem c5_affected_regions_all_keys_witness :
    (run_scenario_with_watsonx_first "low_haze" "api" none (fun _ => 0) 0 0
        initialClinicState []).1.map (fun r => r.risk_assessment.affected_regions)
      = Except.ok (regionKeys low_haze_scenario.psi_data) :=
  c5_affected_regions_all_keys "low_haze" "api" none (fun _ => 0) 0 0
    initialClinicState [] low_haze_scenario rfl

/-- C6 (counterexample): a non-UI invocation does change the protocol field:
running the severe scenario with source "api" from the initial state (protocol
"standard") leaves the state with protocol "autonomous" — `clinic_state["protocol"]`
is assigned on every run (app.py line 365), not only on UI-initiated ones. -/
theorem c6_non_ui_run_flips_protocol :
    initialClinicState.protocol = "standard" ∧
    ("api" == "ui") = false ∧
    (run_scenario_with_watsonx_first "severe_haze" "api" none (fun _ => 0) 0 0
        initialClinicState []).2.1.protocol = "autonomous" :=
  ⟨rfl, rfl, rfl⟩

/-- C6 (amended): every successful run, whatever its origin, overwrites the
protocol field from the governance outcome: it becomes "autonomous" exactly
when the scenario is `severe_haze` and the origin is not the UI, and
"standard" in every other case — in particular UI-originated runs always reset
it to "standard", while non-UI severe runs flip it to "autonomous". -/
theorem c6_protocol_set_on_every_run (key source : String) (wxE : Option String)
    (jitter : String → Int) (fdraw : Int) (now : Nat) (st : ClinicState)
    (orders : List Order) (base : Scenario)
    (hb : dictLookup key DEMO_SCENARIOS = some base) :
    (run_scenario_with_watsonx_first key source wxE jitter fdraw now st orders).2.1.protocol
      = (if (key == "severe_haze") && !(source == "ui")
         then "autonomous" else "standard") := by
  obtain ⟨m, hm⟩ := maxPsi_isSome (jitter_psi_ne_nil jitter (catalog_psi_ne_nil hb))
  rw [run_ok hb (run_cycle_eq hm)]
  dsimp only [state_after_run, fallback_decision, policy_autonomous_only_for_severe]
  cases hs : source == "ui" <;> cases hk : key == "severe_haze" <;> simp [hs, hk]

/-- C6 (witness): the amended protocol statement at the severe scenario with a
non-UI origin. -/
theorem c6_protocol_set_on_every_run_witness :
    (run_scenario_with_watsonx_first "severe_haze" "api" none (fun _ => 0) 0 0
        initialClinicState []).2.1.protocol
      = (if ("severe_haze" == "severe_haze") && !("api" == "ui")
         then "autonomous" else "standard") :=
  c6_protocol_set_on_every_run "severe_haze" "api" none (fun _ => 0) 0 0
    initialClinicState [] severe_haze_scenario rfl

/-- C7 (counterexample): on raw text containing two well-formed objects, the
first well-formed JSON object exists (and the spec says it must be located and
parsed), but the gateway takes the slice from the first "\x7b" to the last
"\x7d" and fails to decode it, yielding a parse failure instead. -/
theorem c7_first_object_counterexample :
    firstJsonObject "\x7b\"a\": 1\x7d \x7b\"b\": 2\x7d"
      = some (Json.obj [("a", Json.num 1)]) ∧
    watsonx_extract_json "\x7b\"a\": 1\x7d \x7b\"b\": 2\x7d"
      = Except.error WxErr.decodeError ∧
    watsonx_extract_json "\x7b\"foo\": 1\x7d"
      = Except.ok (Json.obj [("foo", Json.num 1)]) :=
  ⟨rfl, rfl, rfl⟩

/-- C7 (amended): the gateway extracts the substring from the first opening
brace to the last closing brace and parses that whole substring as one JSON
document; it fails with a typed no-JSON error when no such substring exists
and with a typed decode error when the substring is not valid JSON (in
demo-tolerant mode any such failed primary attempt leads to exactly the same
orchestrator outcome as a disabled backend, so it never surfaces to the
caller); it does not search for the first well-formed embedded object, and it
performs no required-keys check — an object lacking the required keys is
returned as-is. -/
theorem c7_extraction_behaviour :
    (∀ t : String, idxOf '{' t.toList = none →
        watsonx_extract_json t = Except.error WxErr.noJson) ∧
    (∀ (key source msg : String) (jitter : String → Int) (fdraw : Int)
        (now : Nat) (st : ClinicState) (orders : List Order),
        run_scenario_with_watsonx_first key source (some msg) jitter fdraw now st orders
          = run_scenario_with_watsonx_first key source none jitter fdraw now st orders) ∧
    watsonx_extract_json "no structured output" = Except.error WxErr.noJson ∧
    watsonx_extract_json "text \x7b\"recommended_qty\": 700\x7d more"
      = Except.ok (Json.obj [("recommended_qty", Json.num 700)]) ∧
    watsonx_extract_json "\x7b\"a\": 1\x7d trailing \x7b"
      = Except.ok (Json.obj [("a", Json.num 1)]) ∧
    watsonx_extract_json "\x7d before \x7b" = Except.error WxErr.noJson := by
  refine ⟨?_, fun key source msg jitter fdraw now st orders => rfl, rfl, rfl, rfl, rfl⟩
  intro t h
  simp only [watsonx_extract_json, h]

/-- C7 (witness): the no-brace failure case at a concrete raw text. -/
theorem c7_extraction_behaviour_witness :
    watsonx_extract_json "abc" = Except.error WxErr.noJson :=
  c7_extraction_behaviour.1 "abc" rfl

/-- C8 (confirmed): an unknown scenario key makes the orchestrator fail with
the typed not-found error (`ValueError("Invalid scenario: ...")`), which is a
failure kind distinct from the only other exception of the modelled path, and
the workflow state and the active order log are returned unchanged — the
source raises before touching either global. -/
theorem c8_unknown_scenario_not_found (key source : String) (wxE : Option String)
    (jitter : String → Int) (fdraw : Int) (now : Nat) (st : ClinicState)
    (orders : List Order)
    (h : dictLookup key DEMO_SCENARIOS = none) :
    run_scenario_with_watsonx_first key source wxE jitter fdraw now st orders
      = (Except.error (RunErr.invalidScenario key), st, orders) ∧
    RunErr.invalidScenario key ≠ RunErr.emptyReadings := by
  refine ⟨?_, by simp⟩
  unfold run_scenario_with_watsonx_first
  rw [h]

/-- C8 (witness): the unknown key "foo" against the full initial state. -/
theorem c8_unknown_scenario_not_found_witness :
    run_scenario_with_watsonx_first "foo" "ui" none (fun _ => 0) 0 0
        initialClinicState []
      = (Except.error (RunErr.invalidScenario "foo"), initialClinicState, []) ∧
    RunErr.invalidScenario "foo" ≠ RunErr.emptyReadings :=
  c8_unknown_scenario_not_found "foo" "ui" none (fun _ => 0) 0 0
    initialClinicState [] rfl

/-- C9 (confirmed): rejecting when the draft is already inactive returns
success and leaves the whole workflow state and the order log unchanged —
`reject_order` only ever writes `draft.active = False`, which is a no-op
there. -/
theorem c9_reject_inactive_noop (st : ClinicState) (orders : List Order)
    (h : st.draft.active = false) :
    reject_order st orders = ("success", st, orders) := by
  obtain ⟨v, p, d⟩ := st
  obtain ⟨a, f, i, q, c, r, au, ps, rl⟩ := d
  cases a with
  | false => rfl
  | true => simp at h

/-- C9 (witness): rejection on the initial (inactive-draft) state. -/
theorem c9_reject_inactive_noop_witness :
    reject_order initialClinicState [] = ("success", initialClinicState, []) :=
  c9_reject_inactive_noop initialClinicState [] rfl

/-- C10 (confirmed): under the actual ±3 jitter bound, the fallback
recommended quantity is a deterministic function of the scenario key:
`severe_haze` always yields 5000 (the supply agent's CRITICAL n95 entry),
`moderate_haze` always 500, and `low_haze` always 300 — the jitter can never
move a catalog maximum across the medical thresholds, so the orchestrator's
1200/600 literal defaults are unreachable for catalog scenarios. -/
theorem c10_catalog_quantities (source : String) (wxE : Option String)
    (jitter : String → Int) (fdraw : Int) (now : Nat) (st : ClinicState)
    (orders : List Order)
    (hj : ∀ r, -3 ≤ jitter r ∧ jitter r ≤ 3) :
    (run_scenario_with_watsonx_first "severe_haze" source wxE jitter fdraw now st orders).1.map
        (fun r => r.supply_chain_actions.recommended_qty) = Except.ok 5000 ∧
    (run_scenario_with_watsonx_first "moderate_haze" source wxE jitter fdraw now st orders).1.map
        (fun r => r.supply_chain_actions.recommended_qty) = Except.ok 500 ∧
    (run_scenario_with_watsonx_first "low_haze" source wxE jitter fdraw now st orders).1.map
        (fun r => r.supply_chain_actions.recommended_qty) = Except.ok 300 := by
  obtain ⟨hc1, hc2⟩ := hj "central"
  obtain ⟨he1, he2⟩ := hj "east"
  obtain ⟨hn1, hn2⟩ := hj "north"
  obtain ⟨hs1, hs2⟩ := hj "south"
  obtain ⟨hw1, hw2⟩ := hj "west"
  refine ⟨?_, ?_, ?_⟩
  · have hb : dictLookup "severe_haze" DEMO_SCENARIOS = some severe_haze_scenario := rfl
    have hm : maxPsi (scenario_with_jitter jitter severe_haze_scenario).psi_data
        = some (max (max (max (max (215 + jitter "central") (198 + jitter "east"))
            (185 + jitter "north")) (205 + jitter "south")) (225 + jitter "west")) := rfl
    rw [run_qty hb hm, if_neg (by omega), if_neg (by omega), if_neg (by omega)]
  · have hb : dictLookup "moderate_haze" DEMO_SCENARIOS = some moderate_haze_scenario := rfl
    have hm : maxPsi (scenario_with_jitter jitter moderate_haze_scenario).psi_data
        = some (max (max (max (max (125 + jitter "central") (118 + jitter "east"))
            (95 + jitter "north")) (102 + jitter "south")) (130 + jitter "west")) := rfl
    rw [run_qty hb hm, if_neg (by omega), if_pos (by omega)]
  · have hb : dictLookup "low_haze" DEMO_SCENARIOS = some low_haze_scenario := rfl
    have hm : maxPsi (scenario_with_jitter jitter low_haze_scenario).psi_data
        = some (max (max (max (max (65 + jitter "central") (60 + jitter "east"))
            (55 + jitter "north")) (62 + jitter "south")) (68 + jitter "west")) := rfl
    rw [run_qty hb hm, if_pos (by omega)]
    rfl

/-- C10 (witness): the three deterministic quantities at zero jitter. -/
theorem c10_catalog_quantities_witness :
    (run_scenario_with_watsonx_first "severe_haze" "api" none (fun _ => 0) 0 0
        initialClinicState []).1.map
      (fun r => r.supply_chain_actions.recommended_qty) = Except.ok 5000 ∧
    (run_scenario_with_watsonx_first "moderate_haze" "api" none (fun _ => 0) 0 0
        initialClinicState []).1.map
      (fun r => r.supply_chain_actions.recommended_qty) = Except.ok 500 ∧
    (run_scenario_with_watsonx_first "low_haze" "api" none (fun _ => 0) 0 0
        initialClinicState []).1.map
      (fun r => r.supply_chain_actions.recommended_qty) = Except.ok 300 :=
  c10_catalog_quantities "api" none (fun _ => 0) 0 0 initialClinicState []
    (fun r => ⟨by norm_num, by norm_num⟩)
